import Mathlib

/-!
Verification of the AllGoGrand token-gated weather-access system.

The backend broker (`src/backend/main.py`), the autonomous agent
(`src/agent/agent.py`) and the marketplace contract
(`smart_contracts/weather_marketplace/contract.py`) are shallowly embedded
below.  External collaborators (the Algorand ledger, the upstream weather
providers, the HTTP transport, and the algosdk address validator) are
modelled as explicit parameters of the embedded functions, so that every
control-flow decision of the source appears as a case split on those
parameters.  All currency amounts are integers in microAlgos; the Python
floating-point conversion `amount / 1_000_000` is modelled exactly in the
rationals (in the comparison ranges the source performs, the double
rounding cannot cross the thresholds, so the rational model is exact).
-/

namespace AllGoGrand

/-- Normalized weather payload produced by `format_weather_data`
(backend/main.py).  Numeric readings are modelled as rationals or
integers. -/
structure WeatherData where
  city : String
  country : String
  temperature : ℚ
  feels_like : ℚ
  humidity : ℤ
  pressure : ℚ
  description : String
  wind_speed : ℚ
  wind_direction : ℤ
  visibility : ℤ
deriving DecidableEq, Repr

/-- A ledger balance query: `account_info(wallet)["amount"]` in microAlgos
when the query succeeds, `none` when the algod call raises. -/
def LedgerQuery : Type := String → Option ℕ

/-- Outcome of `get_weather_data(city)` (the upstream provider chain in
backend/main.py): a normalized payload, a 404 for an unknown city, or a
502 when the provider request raises. -/
inductive UpstreamResult where
  | ok (data : WeatherData)
  | cityNotFound
  | unavailable
deriving DecidableEq

/-- Decision of the broker endpoint `GET /weather` (backend/main.py,
`get_weather`), identified by the control-flow branch that produced it. -/
inductive Decision where
  | granted (data : WeatherData)
  | deniedInvalidWallet
  | deniedInvalidToken
  | deniedCityNotFound
  | deniedUpstreamUnavailable
deriving DecidableEq

/-- HTTP status code carried by each `Decision`, as raised by
`get_weather` (200 on success, 400 `INVALID_WALLET`, 403 `INVALID_TOKEN`,
404 city not found, 502 weather service unavailable). -/
def Decision.status : Decision → ℕ
  | .granted _ => 200
  | .deniedInvalidWallet => 400
  | .deniedInvalidToken => 403
  | .deniedCityNotFound => 404
  | .deniedUpstreamUnavailable => 502

/-- Machine-readable error code of a denial, from the `detail` dictionaries
built in `get_weather` (backend/main.py). -/
def Decision.code : Decision → String
  | .granted _ => "OK"
  | .deniedInvalidWallet => "INVALID_WALLET"
  | .deniedInvalidToken => "INVALID_TOKEN"
  | .deniedCityNotFound => "CITY_NOT_FOUND"
  | .deniedUpstreamUnavailable => "UPSTREAM_UNAVAILABLE"

/-- Whether a decision is a grant. -/
def Decision.isGranted : Decision → Bool
  | .granted _ => true
  | _ => false

/-- `check_token_ownership(wallet)` (backend/main.py lines 150-176):
queries the wallet's balance; the wallet "has a token" iff
`amount / 1_000_000 >= 5.0`; any exception from the ledger query makes the
function return `False`. -/
def check_token_ownership (ledger : LedgerQuery) (wallet : String) : Bool :=
  match ledger wallet with
  | none => false
  | some amt => decide ((5 : ℚ) ≤ (amt : ℚ) / 1000000)

/-- Result of a broker call, instrumented with how many ledger queries and
how many upstream-provider fetches the call performed. -/
structure BrokerResult where
  decision : Decision
  ledgerCalls : ℕ
  upstreamCalls : ℕ
deriving DecidableEq

/-- The broker endpoint `get_weather(city, wallet)` (backend/main.py lines
474-552): validate the wallet address (no ledger contact); then
`check_token_ownership` (one ledger query); then fetch and format the
upstream weather data (one upstream call).  `validate` stands for the
algosdk round-trip in `validate_wallet_address`. -/
def broker_get_weather (validate : String → Bool) (ledger : LedgerQuery)
    (upstream : String → UpstreamResult) (city wallet : String) : BrokerResult :=
  if validate wallet = false then
    ⟨.deniedInvalidWallet, 0, 0⟩
  else if check_token_ownership ledger wallet = false then
    ⟨.deniedInvalidToken, 1, 0⟩
  else
    match upstream city with
    | .ok d => ⟨.granted d, 1, 1⟩
    | .cityNotFound => ⟨.deniedCityNotFound, 1, 1⟩
    | .unavailable => ⟨.deniedUpstreamUnavailable, 1, 1⟩

/-! ## Autonomous agent (src/agent/agent.py, class WeatherAgent) -/

/-- Mutable counters and cached account data of a `WeatherAgent` instance
(`__init__`, agent.py lines 79-87).  `balance` is the cached balance in
microAlgos (`balance_algos = balance / 1_000_000`). -/
structure AgentState where
  balance : ℕ
  tokens_purchased : ℕ
  request_count : ℕ
  successful_requests : ℕ
deriving DecidableEq, Repr

/-- `_update_account_info` (agent.py lines 93-110): on a successful
`account_info` query the cached balance is replaced; when the query raises,
the error is logged and the state is left unchanged. -/
def update_account_info (s : AgentState) (q : Option ℕ) : AgentState :=
  match q with
  | some amt => { s with balance := amt }
  | none => s

/-- What the HTTP round trip inside `WeatherAgent.get_weather` can
produce: a 200 whose JSON body parses to weather data, a 403 denial, any
other status code, or an exception raised by `requests.get`. -/
inductive HttpResult where
  | ok (data : WeatherData)
  | denied403
  | otherStatus (status : ℕ)
  | networkError
deriving DecidableEq

/-- Whether the HTTP round trip delivered a 200 with a payload. -/
def HttpResult.isOk : HttpResult → Bool
  | .ok _ => true
  | _ => false

/-- `WeatherAgent.get_weather(city)` (agent.py lines 116-153):
`request_count` is incremented before the request is issued; on a 200
response `successful_requests` is incremented and the payload returned;
every other status and every exception yields `None`. -/
def agent_get_weather (s : AgentState) (r : HttpResult) :
    AgentState × Option WeatherData :=
  let s1 := { s with request_count := s.request_count + 1 }
  match r with
  | .ok d =>
      ({ s1 with successful_requests := s1.successful_requests + 1 }, some d)
  | _ => (s1, none)

/-- Outcome of the ledger submit-and-confirm path inside
`purchase_weather_token`: `wait_for_confirmation` returned a confirmation
with the given `confirmed-round`, or some step of build/sign/submit/wait
raised an exception. -/
inductive SubmitOutcome where
  | confirmed (round : ℕ)
  | failed
deriving DecidableEq

/-- Environment for one `purchase_weather_token` call: the outcome of the
transaction submission and the result of the `_update_account_info` ledger
query performed after a confirmed purchase. -/
structure PurchaseEnv where
  outcome : SubmitOutcome
  postInfo : Option ℕ
deriving DecidableEq

/-- Result of `purchase_weather_token`, instrumented with whether the call
reached the ledger's submit path. -/
structure PurchaseResult where
  state : AgentState
  success : Bool
  submitted : Bool
deriving DecidableEq

/-- `WeatherAgent.purchase_weather_token()` (agent.py lines 155-209): if
`balance_algos < 1.1` the method logs an insufficient-balance error and
returns `False` without building or submitting a transaction; otherwise it
submits a 1-ALGO payment and waits for confirmation; on a confirmation with
`confirmed-round > 0` it increments `tokens_purchased`, refreshes the
account info and returns `True`; a zero confirmed round or any exception
returns `False`. -/
def purchase_weather_token (s : AgentState) (env : PurchaseEnv) : PurchaseResult :=
  if (s.balance : ℚ) / 1000000 < 11 / 10 then
    ⟨s, false, false⟩
  else
    match env.outcome with
    | .confirmed round =>
        if 0 < round then
          ⟨update_account_info
            { s with tokens_purchased := s.tokens_purchased + 1 } env.postInfo,
           true, true⟩
        else ⟨s, false, true⟩
    | .failed => ⟨s, false, true⟩

/-- An environment `e` under which every purchase attempt fails, whatever
the agent's state (for example, `wait_for_confirmation` always raising). -/
def alwaysFails (e : PurchaseEnv) : Prop :=
  ∀ s : AgentState, (purchase_weather_token s e).success = false

/-- Result of `autonomous_weather_request`: final agent state, the
returned data (`none` is the exhausted-retries failure), and the number of
`purchase_weather_token` calls performed. -/
structure AutoResult where
  state : AgentState
  data : Option WeatherData
  attempts : ℕ
deriving DecidableEq

/-- The purchase-retry loop of `autonomous_weather_request` (agent.py
lines 257-281): `for attempt in range(max_attempts)`, each iteration calls
`purchase_weather_token`; on a successful purchase the weather request is
retried and a granted retry returns its data; otherwise the loop
continues; falling off the loop returns `None`.  `env i` and `retry i` are
the purchase environment and retry response of iteration `i`. -/
def auto_loop (env : ℕ → PurchaseEnv) (retry : ℕ → HttpResult)
    (s : AgentState) (attempt remaining : ℕ) : AutoResult :=
  match remaining with
  | 0 => ⟨s, none, 0⟩
  | n + 1 =>
    let pr := purchase_weather_token s (env attempt)
    if pr.success then
      let gw := agent_get_weather pr.state (retry attempt)
      match gw.2 with
      | some w => ⟨gw.1, some w, 1⟩
      | none =>
        let rest := auto_loop env retry gw.1 (attempt + 1) n
        ⟨rest.state, rest.data, rest.attempts + 1⟩
    else
      let rest := auto_loop env retry pr.state (attempt + 1) n
      ⟨rest.state, rest.data, rest.attempts + 1⟩

/-- `WeatherAgent.autonomous_weather_request(city, max_attempts)`
(agent.py lines 232-281): refresh the account info, issue the initial
weather request (`r0`), return its data when granted; otherwise run the
bounded purchase-retry loop. -/
def autonomous_weather_request (info0 : Option ℕ) (r0 : HttpResult)
    (env : ℕ → PurchaseEnv) (retry : ℕ → HttpResult)
    (s : AgentState) (max_attempts : ℕ) : AutoResult :=
  let gw := agent_get_weather (update_account_info s info0) r0
  match gw.2 with
  | some w => ⟨gw.1, some w, 0⟩
  | none => auto_loop env retry gw.1 0 max_attempts

/-- One externally observable operation on a `WeatherAgent` instance,
with the collaborator responses it consumes. -/
inductive AgentOp where
  | opGetWeather (r : HttpResult)
  | opPurchase (e : PurchaseEnv)
  | opUpdateInfo (q : Option ℕ)
  | opAutonomous (info0 : Option ℕ) (r0 : HttpResult)
      (env : ℕ → PurchaseEnv) (retry : ℕ → HttpResult) (max_attempts : ℕ)

/-- State reached after one operation. -/
def agentStep (s : AgentState) : AgentOp → AgentState
  | .opGetWeather r => (agent_get_weather s r).1
  | .opPurchase e => (purchase_weather_token s e).state
  | .opUpdateInfo q => update_account_info s q
  | .opAutonomous info0 r0 env retry n =>
      (autonomous_weather_request info0 r0 env retry s n).state

/-- `WeatherAgent.__init__` (agent.py lines 79-87): all counters start at
zero and `_update_account_info` is called once. -/
def agentInit (info0 : Option ℕ) : AgentState :=
  update_account_info ⟨0, 0, 0, 0⟩ info0

/-- The state of an agent after a sequence of operations from start-up. -/
def agentRun (info0 : Option ℕ) (ops : List AgentOp) : AgentState :=
  ops.foldl agentStep (agentInit info0)

/-! ## Marketplace contract
(smart_contracts/weather_marketplace/contract.py, class WeatherMarketplace)

`algopy.UInt64` values are natural numbers below `2 ^ 64`; arithmetic that
would leave that range fails the transaction, so `record_token_sale` is
modelled as returning `none` exactly when the increment would overflow. -/

/-- Global state of the `WeatherMarketplace` ARC4 contract. -/
structure MarketplaceState where
  token_price : ℕ
  weather_asa_id : ℕ
  token_duration : ℕ
  total_tokens_sold : ℕ
  is_active : Bool
deriving DecidableEq, Repr

/-- `WeatherMarketplace.__init__` (contract.py lines 14-28). -/
def marketplaceInit : MarketplaceState :=
  ⟨10000000, 0, 3600, 0, true⟩

/-- `get_token_price` (contract.py lines 30-38): read-only. -/
def get_token_price (s : MarketplaceState) : MarketplaceState × ℕ :=
  (s, s.token_price)

/-- `get_weather_asa_id` (contract.py lines 40-48): read-only. -/
def get_weather_asa_id (s : MarketplaceState) : MarketplaceState × ℕ :=
  (s, s.weather_asa_id)

/-- `set_weather_asa_id` (contract.py lines 50-58): overwrite
`weather_asa_id` with the argument. -/
def set_weather_asa_id (s : MarketplaceState) (asa_id : ℕ) : MarketplaceState :=
  { s with weather_asa_id := asa_id }

/-- `get_token_duration` (contract.py lines 60-68): read-only. -/
def get_token_duration (s : MarketplaceState) : MarketplaceState × ℕ :=
  (s, s.token_duration)

/-- `record_token_sale` (contract.py lines 70-79): increment
`total_tokens_sold` and return the updated count; the transaction fails
(`none`) if the `UInt64` increment would overflow. -/
def record_token_sale (s : MarketplaceState) : Option (MarketplaceState × ℕ) :=
  if s.total_tokens_sold + 1 < 2 ^ 64 then
    some ({ s with total_tokens_sold := s.total_tokens_sold + 1 },
          s.total_tokens_sold + 1)
  else none

/-- `get_total_sales` (contract.py lines 81-89): read-only. -/
def get_total_sales (s : MarketplaceState) : MarketplaceState × ℕ :=
  (s, s.total_tokens_sold)

/-- `is_contract_active` (contract.py lines 91-99): read-only. -/
def is_contract_active (s : MarketplaceState) : MarketplaceState × Bool :=
  (s, s.is_active)

/-- One ABI method call on the contract. -/
inductive MarketOp where
  | opGetPrice
  | opGetAsaId
  | opSetAsaId (asa_id : ℕ)
  | opGetDuration
  | opRecordSale
  | opGetTotalSales
  | opIsActive
deriving DecidableEq

/-- State after one method call; a failed `record_token_sale` transaction
leaves the global state unchanged. -/
def marketStep (s : MarketplaceState) : MarketOp → MarketplaceState
  | .opGetPrice => (get_token_price s).1
  | .opGetAsaId => (get_weather_asa_id s).1
  | .opSetAsaId a => set_weather_asa_id s a
  | .opGetDuration => (get_token_duration s).1
  | .opRecordSale =>
      match record_token_sale s with
      | some (s2, _) => s2
      | none => s
  | .opGetTotalSales => (get_total_sales s).1
  | .opIsActive => (is_contract_active s).1

/-- Contract state after a sequence of method calls from creation. -/
def marketRun (ops : List MarketOp) : MarketplaceState :=
  ops.foldl marketStep marketplaceInit

/-! ## Broker theorems -/

/-- C1: for every account whose balance query succeeds with `amt`
microAlgos, `check_token_ownership` returns true iff the balance in ALGO
is at least the threshold 5.0, equivalently iff `amt ≥ 5_000_000`
microAlgos; below the threshold it returns false. -/
theorem C1_reference_policy_threshold (ledger : LedgerQuery)
    (wallet : String) (amt : ℕ) (h : ledger wallet = some amt) :
    (check_token_ownership ledger wallet = true ↔ (5 : ℚ) ≤ (amt : ℚ) / 1000000) ∧
    (check_token_ownership ledger wallet = true ↔ 5000000 ≤ amt) ∧
    (check_token_ownership ledger wallet = false ↔ (amt : ℚ) / 1000000 < 5) := by
  have key : ((5 : ℚ) ≤ (amt : ℚ) / 1000000) ↔ (5000000 ≤ amt) := by
    rw [le_div_iff₀ (by norm_num : (0 : ℚ) < 1000000)]
    constructor
    · intro h2
      have := (Nat.cast_le (α := ℚ)).mpr (le_refl amt)
      exact_mod_cast h2
    · intro h2
      have : (5000000 : ℚ) ≤ (amt : ℚ) := by exact_mod_cast h2
      linarith
  unfold check_token_ownership
  rw [h]
  refine ⟨by simp, by simp [key], ?_⟩
  simp [not_le]

/-- C1 witness: a ledger reporting exactly 5 ALGO (5,000,000 microAlgos)
is judged to hold a token, and one reporting 4,999,999 is not. -/
theorem C1_reference_policy_threshold_witness :
    check_token_ownership (fun _ => some 5000000) "WALLET" = true ∧
    check_token_ownership (fun _ => some 4999999) "WALLET" = false := by
  constructor
  · exact (C1_reference_policy_threshold (fun _ => some 5000000) "WALLET"
      5000000 rfl).2.1.mpr (by norm_num)
  · exact (C1_reference_policy_threshold (fun _ => some 4999999) "WALLET"
      4999999 rfl).2.2.mpr (by norm_num)

/-- C2: with a well-formed wallet whose balance query fails, the verifier
returns false (the exception does not escape) and the broker denies with
HTTP 403, code INVALID_TOKEN — never a grant. -/
theorem C2_fail_closed (validate : String → Bool) (ledger : LedgerQuery)
    (upstream : String → UpstreamResult) (city wallet : String)
    (hv : validate wallet = true) (hl : ledger wallet = none) :
    check_token_ownership ledger wallet = false ∧
    (broker_get_weather validate ledger upstream city wallet).decision =
      .deniedInvalidToken ∧
    (broker_get_weather validate ledger upstream city wallet).decision.status = 403 ∧
    (broker_get_weather validate ledger upstream city wallet).decision.code =
      "INVALID_TOKEN" ∧
    (broker_get_weather validate ledger upstream city wallet).decision.isGranted =
      false := by
  have hc : check_token_ownership ledger wallet = false := by
    unfold check_token_ownership
    rw [hl]
  refine ⟨hc, ?_, ?_, ?_, ?_⟩ <;>
    simp [broker_get_weather, hv, hc, Decision.status, Decision.code,
      Decision.isGranted]

/-- C2 witness: concrete request against a ledger whose balance query
always fails. -/
theorem C2_fail_closed_witness :
    check_token_ownership (fun _ => none) "WALLET" = false ∧
    (broker_get_weather (fun _ => true) (fun _ => none)
      (fun _ => .unavailable) "London" "WALLET").decision.status = 403 := by
  have h := C2_fail_closed (fun _ => true) (fun _ => none)
    (fun _ => .unavailable) "London" "WALLET" rfl rfl
  exact ⟨h.1, h.2.2.1⟩

/-- C3: a malformed wallet address is denied with HTTP 400, code
INVALID_WALLET, and the broker performs no ledger query and no upstream
call. -/
theorem C3_invalid_wallet_no_calls (validate : String → Bool)
    (ledger : LedgerQuery) (upstream : String → UpstreamResult)
    (city wallet : String) (hv : validate wallet = false) :
    broker_get_weather validate ledger upstream city wallet =
      ⟨.deniedInvalidWallet, 0, 0⟩ ∧
    (broker_get_weather validate ledger upstream city wallet).decision.status = 400 ∧
    (broker_get_weather validate ledger upstream city wallet).decision.code =
      "INVALID_WALLET" ∧
    (broker_get_weather validate ledger upstream city wallet).ledgerCalls = 0 ∧
    (broker_get_weather validate ledger upstream city wallet).upstreamCalls = 0 := by
  refine ⟨?_, ?_, ?_, ?_, ?_⟩ <;>
    simp [broker_get_weather, hv, Decision.status, Decision.code]

/-- C3 witness: concrete malformed-wallet request. -/
theorem C3_invalid_wallet_no_calls_witness :
    (broker_get_weather (fun _ => false) (fun _ => some 9000000)
      (fun _ => .cityNotFound) "London" "notawallet").ledgerCalls = 0 := by
  exact (C3_invalid_wallet_no_calls (fun _ => false) (fun _ => some 9000000)
    (fun _ => .cityNotFound) "London" "notawallet" rfl).2.2.2.1

/-- C8: the broker's decision is a function of the wallet's ledger entry
and the upstream data for the requested city alone; two calls with
unchanged ledger state and unchanged upstream data return equal
results. -/
theorem C8_handle_idempotent (validate : String → Bool)
    (l1 l2 : LedgerQuery) (u1 u2 : String → UpstreamResult)
    (city wallet : String) (hl : l1 wallet = l2 wallet)
    (hu : u1 city = u2 city) :
    broker_get_weather validate l1 u1 city wallet =
      broker_get_weather validate l2 u2 city wallet := by
  unfold broker_get_weather check_token_ownership
  rw [hl, hu]

/-- C8 witness: two consecutive calls against the same environment agree. -/
theorem C8_handle_idempotent_witness :
    broker_get_weather (fun _ => true) (fun _ => some 6000000)
      (fun _ => .unavailable) "London" "WALLET" =
    broker_get_weather (fun _ => true) (fun _ => some 6000000)
      (fun _ => .unavailable) "London" "WALLET" := by
  exact C8_handle_idempotent (fun _ => true) (fun _ => some 6000000)
    (fun _ => some 6000000) (fun _ => .unavailable) (fun _ => .unavailable)
    "London" "WALLET" rfl rfl

/-! ## Agent theorems -/

/-- A failed purchase leaves the agent state unchanged. -/
theorem purchase_fail_state (s : AgentState) (e : PurchaseEnv)
    (h : (purchase_weather_token s e).success = false) :
    (purchase_weather_token s e).state = s := by
  by_cases h1 : (s.balance : ℚ) / 1000000 < 11 / 10
  · simp [purchase_weather_token, h1]
  · cases ho : e.outcome with
    | failed => simp [purchase_weather_token, h1, ho]
    | confirmed round =>
      by_cases hr : 0 < round
      · exfalso
        simp [purchase_weather_token, h1, ho, hr] at h
      · simp [purchase_weather_token, h1, ho, hr]

/-- `update_account_info` touches only the cached balance. -/
theorem update_account_info_counters (s : AgentState) (q : Option ℕ) :
    (update_account_info s q).request_count = s.request_count ∧
    (update_account_info s q).successful_requests = s.successful_requests ∧
    (update_account_info s q).tokens_purchased = s.tokens_purchased := by
  cases q <;> simp [update_account_info]

/-- `purchase_weather_token` never touches the request counters. -/
theorem purchase_request_counters (s : AgentState) (e : PurchaseEnv) :
    (purchase_weather_token s e).state.request_count = s.request_count ∧
    (purchase_weather_token s e).state.successful_requests =
      s.successful_requests := by
  unfold purchase_weather_token
  split
  · exact ⟨rfl, rfl⟩
  · split
    · split
      · cases e.postInfo <;> simp [update_account_info]
      · exact ⟨rfl, rfl⟩
    · exact ⟨rfl, rfl⟩

/-- The purchase-retry loop performs at most `remaining` purchase calls. -/
theorem auto_loop_attempts_le (env : ℕ → PurchaseEnv)
    (retry : ℕ → HttpResult) :
    ∀ (remaining : ℕ) (s : AgentState) (attempt : ℕ),
      (auto_loop env retry s attempt remaining).attempts ≤ remaining := by
  intro remaining
  induction remaining with
  | zero => intro s a; simp [auto_loop]
  | succ n ih =>
    intro s a
    simp only [auto_loop]
    split
    · split
      · simp
      · simpa using Nat.succ_le_succ (ih _ (a + 1))
    · simpa using Nat.succ_le_succ (ih _ (a + 1))

/-- Against an acquirer that fails on every attempt, the loop exhausts its
whole budget: no data and exactly `remaining` purchase calls. -/
theorem auto_loop_all_fail (env : ℕ → PurchaseEnv) (retry : ℕ → HttpResult)
    (hfail : ∀ i, alwaysFails (env i)) :
    ∀ (remaining : ℕ) (s : AgentState) (attempt : ℕ),
      (auto_loop env retry s attempt remaining).data = none ∧
      (auto_loop env retry s attempt remaining).attempts = remaining := by
  intro remaining
  induction remaining with
  | zero => intro s a; simp [auto_loop]
  | succ n ih =>
    intro s a
    have hf := hfail a s
    simp only [auto_loop, hf]
    simpa using ih _ (a + 1)

/-- When the budget is positive, entering the loop performs at least one
purchase call. -/
theorem auto_loop_attempts_pos (env : ℕ → PurchaseEnv)
    (retry : ℕ → HttpResult) (remaining : ℕ) (s : AgentState) (attempt : ℕ)
    (h : 1 ≤ remaining) :
    1 ≤ (auto_loop env retry s attempt remaining).attempts := by
  cases remaining with
  | zero => omega
  | succ n =>
    simp only [auto_loop]
    split
    · split
      · simp
      · simp
    · simp

/-- C4: `autonomous_weather_request` with budget `N` performs at most `N`
acquisition attempts (for every acquirer and every broker behaviour), and
against an acquirer that fails on every attempt — after an initial denial —
it returns no data (exhausted retries) with the attempt count exactly
`N`. -/
theorem C4_retry_bound (info0 : Option ℕ) (r0 : HttpResult)
    (env : ℕ → PurchaseEnv) (retry : ℕ → HttpResult) (s : AgentState)
    (N : ℕ) (hN : 1 ≤ N) (hfail : ∀ i, alwaysFails (env i))
    (hr0 : r0.isOk = false) :
    (∀ (info2 : Option ℕ) (r2 : HttpResult) (env2 : ℕ → PurchaseEnv)
       (retry2 : ℕ → HttpResult) (s2 : AgentState),
       (autonomous_weather_request info2 r2 env2 retry2 s2 N).attempts ≤ N) ∧
    (autonomous_weather_request info0 r0 env retry s N).data = none ∧
    (autonomous_weather_request info0 r0 env retry s N).attempts = N := by
  have general : ∀ (info2 : Option ℕ) (r2 : HttpResult)
      (env2 : ℕ → PurchaseEnv) (retry2 : ℕ → HttpResult) (s2 : AgentState),
      (autonomous_weather_request info2 r2 env2 retry2 s2 N).attempts ≤ N := by
    intro info2 r2 env2 retry2 s2
    unfold autonomous_weather_request
    cases r2 <;> simp [agent_get_weather, auto_loop_attempts_le]
  refine ⟨general, ?_, ?_⟩ <;>
  · unfold autonomous_weather_request
    cases r0 <;> simp_all [HttpResult.isOk, agent_get_weather,
      auto_loop_all_fail env retry hfail N]

/-- C4 witness: budget 2, an acquirer whose submission always raises, and
a broker that always answers 403. -/
theorem C4_retry_bound_witness :
    (autonomous_weather_request none .denied403 (fun _ => ⟨.failed, none⟩)
      (fun _ => .denied403) ⟨0, 0, 0, 0⟩ 2).attempts = 2 := by
  have hfail : ∀ i : ℕ, alwaysFails ((fun _ => (⟨.failed, none⟩ : PurchaseEnv)) i) := by
    intro i s
    by_cases h : (s.balance : ℚ) / 1000000 < 11 / 10 <;>
      simp [purchase_weather_token, h]
  exact (C4_retry_bound none .denied403 (fun _ => ⟨.failed, none⟩)
    (fun _ => .denied403) ⟨0, 0, 0, 0⟩ 2 (by norm_num) hfail rfl).2.2

/-- A fixed concrete weather payload, used as a witness input. -/
def sampleWeather : WeatherData :=
  ⟨"London", "GB", 15, 14, 70, 1013, "overcast", 3, 180, 10000⟩

/-- C5 counterexample: with the broker answering the initial request with
HTTP 400 (the InvalidIdentity denial, not a 403 Unauthorized), the agent
still enters the purchase loop and performs 3 acquisition attempts; the
source's `get_weather` collapses every non-200 outcome to `None`, so the
denial reason never reaches the retry logic. -/
theorem C5_counterexample :
    ((HttpResult.otherStatus 400).isOk = false ∧
      HttpResult.otherStatus 400 ≠ HttpResult.denied403) ∧
    (autonomous_weather_request (some 10000000) (.otherStatus 400)
      (fun _ => ⟨.failed, none⟩) (fun _ => .denied403)
      ⟨0, 0, 0, 0⟩ 3).attempts = 3 := by
  refine ⟨⟨rfl, by simp⟩, ?_⟩
  have hfail : ∀ i : ℕ,
      alwaysFails ((fun _ => (⟨.failed, none⟩ : PurchaseEnv)) i) := by
    intro i s
    by_cases h : (s.balance : ℚ) / 1000000 < 11 / 10 <;>
      simp [purchase_weather_token, h]
  have h := auto_loop_all_fail (fun _ => ⟨.failed, none⟩)
    (fun _ => .denied403) hfail 3
  unfold autonomous_weather_request
  exact (h _ 0).2

/-- C5 amended: an acquisition attempt is entered after ANY unsuccessful
request, whatever the denial reason (403, 400, 502, or a transport error)
— only a granted (200) initial response terminates with no acquisition
attempted; when the initial response is not a grant and the budget is
positive, at least one acquisition attempt occurs. -/
theorem C5_acquire_after_any_failure (info0 : Option ℕ) (r0 : HttpResult)
    (env : ℕ → PurchaseEnv) (retry : ℕ → HttpResult) (s : AgentState)
    (N : ℕ) :
    (r0.isOk = true →
      (autonomous_weather_request info0 r0 env retry s N).attempts = 0) ∧
    (r0.isOk = false → 1 ≤ N →
      1 ≤ (autonomous_weather_request info0 r0 env retry s N).attempts) := by
  constructor
  · intro h
    cases r0 <;> simp_all [HttpResult.isOk, autonomous_weather_request,
      agent_get_weather]
  · intro h hN
    cases r0 <;> simp_all [HttpResult.isOk, autonomous_weather_request,
      agent_get_weather] <;>
      exact auto_loop_attempts_pos _ _ _ _ _ hN

/-- C5 witness: a granted initial response yields zero acquisition
attempts; an initial 502-style failure with budget 1 yields at least
one. -/
theorem C5_acquire_after_any_failure_witness :
    (autonomous_weather_request none (.ok sampleWeather)
      (fun _ => ⟨.failed, none⟩) (fun _ => .denied403)
      ⟨0, 0, 0, 0⟩ 3).attempts = 0 ∧
    1 ≤ (autonomous_weather_request none (.otherStatus 502)
      (fun _ => ⟨.failed, none⟩) (fun _ => .denied403)
      ⟨0, 0, 0, 0⟩ 1).attempts := by
  constructor
  · exact (C5_acquire_after_any_failure none (.ok sampleWeather)
      (fun _ => ⟨.failed, none⟩) (fun _ => .denied403) ⟨0, 0, 0, 0⟩ 3).1 rfl
  · exact (C5_acquire_after_any_failure none (.otherStatus 502)
      (fun _ => ⟨.failed, none⟩) (fun _ => .denied403) ⟨0, 0, 0, 0⟩ 1).2
      rfl (le_refl 1)

/-- C6 counterexample: an acquisition attempt that reaches the ledger's
submit path but fails to confirm leaves `tokens_purchased` unchanged —
the counter is NOT incremented on every acquisition attempt regardless of
outcome, only on confirmed purchases. -/
theorem C6_counterexample :
    (purchase_weather_token ⟨2000000, 0, 0, 0⟩ ⟨.failed, none⟩).submitted = true ∧
    (purchase_weather_token ⟨2000000, 0, 0, 0⟩ ⟨.failed, none⟩).success = false ∧
    (purchase_weather_token ⟨2000000, 0, 0, 0⟩ ⟨.failed, none⟩).state.tokens_purchased
      = (⟨2000000, 0, 0, 0⟩ : AgentState).tokens_purchased := by
  refine ⟨?_, ?_, ?_⟩ <;> norm_num [purchase_weather_token]

/-- C6 amended: the request counter is incremented after every request
regardless of outcome, but the acquisitions counter `tokens_purchased` is
incremented exactly on the acquisition attempts that succeed (confirmed
purchases) and left unchanged on failed attempts. -/
theorem C6_counter_increments (s : AgentState) (r : HttpResult)
    (e : PurchaseEnv) :
    (agent_get_weather s r).1.request_count = s.request_count + 1 ∧
    (purchase_weather_token s e).state.tokens_purchased =
      s.tokens_purchased +
        (if (purchase_weather_token s e).success = true then 1 else 0) := by
  constructor
  · cases r <;> rfl
  · by_cases h1 : (s.balance : ℚ) / 1000000 < 11 / 10
    · simp [purchase_weather_token, h1]
    · cases ho : e.outcome with
      | failed => simp [purchase_weather_token, h1, ho]
      | confirmed round =>
        by_cases hr : 0 < round
        · cases hp : e.postInfo <;>
            simp [purchase_weather_token, update_account_info, h1, ho, hr, hp]
        · simp [purchase_weather_token, h1, ho, hr]

/-- C7: when the cached balance is below 1.1 ALGO (the token cost plus the
fee safety margin), `purchase_weather_token` fails, does not reach the
ledger's submit path, leaves the state unchanged, and reports the failure
to the caller by returning `False`. -/
theorem C7_insufficient_funds (s : AgentState) (e : PurchaseEnv)
    (h : (s.balance : ℚ) / 1000000 < 11 / 10) :
    purchase_weather_token s e =
      ⟨s, false, false⟩ ∧
    (purchase_weather_token s e).submitted = false ∧
    (purchase_weather_token s e).success = false ∧
    (purchase_weather_token s e).state = s := by
  refine ⟨?_, ?_, ?_, ?_⟩ <;> simp [purchase_weather_token, h]

/-- C7 witness: a 1-ALGO account cannot purchase, even against a ledger
that would confirm. -/
theorem C7_insufficient_funds_witness :
    (purchase_weather_token ⟨1000000, 0, 0, 0⟩ ⟨.confirmed 7, some 0⟩).submitted
      = false := by
  exact (C7_insufficient_funds ⟨1000000, 0, 0, 0⟩ ⟨.confirmed 7, some 0⟩
    (by norm_num)).2.1

/-- Relation between an agent state and its successor: both request
counters are non-decreasing and the invariant
`successful_requests ≤ request_count` is preserved. -/
def CounterStep (s t : AgentState) : Prop :=
  s.request_count ≤ t.request_count ∧
  s.successful_requests ≤ t.successful_requests ∧
  (s.successful_requests ≤ s.request_count →
    t.successful_requests ≤ t.request_count)

theorem counterStep_refl (s : AgentState) : CounterStep s s :=
  ⟨le_refl _, le_refl _, fun h => h⟩

theorem counterStep_trans {a b c : AgentState} (h1 : CounterStep a b)
    (h2 : CounterStep b c) : CounterStep a c :=
  ⟨le_trans h1.1 h2.1, le_trans h1.2.1 h2.2.1, fun h => h2.2.2 (h1.2.2 h)⟩

theorem counterStep_gw (s : AgentState) (r : HttpResult) :
    CounterStep s (agent_get_weather s r).1 := by
  cases r <;> simp [CounterStep, agent_get_weather] <;> omega

theorem counterStep_purchase (s : AgentState) (e : PurchaseEnv) :
    CounterStep s (purchase_weather_token s e).state := by
  have h := purchase_request_counters s e
  exact ⟨le_of_eq h.1.symm, le_of_eq h.2.symm, fun hinv => by omega⟩

theorem counterStep_update (s : AgentState) (q : Option ℕ) :
    CounterStep s (update_account_info s q) := by
  cases q <;> simp [CounterStep, update_account_info]

theorem counterStep_auto_loop (env : ℕ → PurchaseEnv)
    (retry : ℕ → HttpResult) :
    ∀ (n : ℕ) (s : AgentState) (a : ℕ),
      CounterStep s (auto_loop env retry s a n).state := by
  intro n
  induction n with
  | zero => intro s a; exact counterStep_refl s
  | succ n ih =>
    intro s a
    simp only [auto_loop]
    split
    · split
      · exact counterStep_trans (counterStep_purchase s (env a))
          (counterStep_gw _ (retry a))
      · exact counterStep_trans
          (counterStep_trans (counterStep_purchase s (env a))
            (counterStep_gw _ (retry a)))
          (ih _ (a + 1))
    · exact counterStep_trans (counterStep_purchase s (env a)) (ih _ (a + 1))

theorem counterStep_autonomous (info0 : Option ℕ) (r0 : HttpResult)
    (env : ℕ → PurchaseEnv) (retry : ℕ → HttpResult) (s : AgentState)
    (N : ℕ) :
    CounterStep s (autonomous_weather_request info0 r0 env retry s N).state := by
  have h1 := counterStep_update s info0
  have h2 := counterStep_gw (update_account_info s info0) r0
  unfold autonomous_weather_request
  cases r0 with
  | ok d => exact counterStep_trans h1 h2
  | denied403 =>
      exact counterStep_trans (counterStep_trans h1 h2)
        (counterStep_auto_loop env retry N _ 0)
  | otherStatus st =>
      exact counterStep_trans (counterStep_trans h1 h2)
        (counterStep_auto_loop env retry N _ 0)
  | networkError =>
      exact counterStep_trans (counterStep_trans h1 h2)
        (counterStep_auto_loop env retry N _ 0)

theorem counterStep_step (s : AgentState) (op : AgentOp) :
    CounterStep s (agentStep s op) := by
  cases op with
  | opGetWeather r => exact counterStep_gw s r
  | opPurchase e => exact counterStep_purchase s e
  | opUpdateInfo q => exact counterStep_update s q
  | opAutonomous info0 r0 env retry n =>
      exact counterStep_autonomous info0 r0 env retry s n

theorem run_invariant (ops : List AgentOp) :
    ∀ s : AgentState, s.successful_requests ≤ s.request_count →
      (ops.foldl agentStep s).successful_requests ≤
        (ops.foldl agentStep s).request_count := by
  induction ops with
  | nil => intro s h; exact h
  | cons op rest ih =>
      intro s h
      exact ih _ ((counterStep_step s op).2.2 h)

/-- C9: in every reachable state of a `WeatherAgent`,
`successful_requests ≤ request_count`; both counters are non-decreasing
under every operation; `get_weather` increments `request_count` by exactly
1 on every call and increments `successful_requests` exactly when the
broker responds with a parsed 200. -/
theorem C9_request_counters (info0 : Option ℕ) (ops : List AgentOp)
    (s : AgentState) (op : AgentOp) (r : HttpResult) :
    (agentRun info0 ops).successful_requests ≤
      (agentRun info0 ops).request_count ∧
    s.request_count ≤ (agentStep s op).request_count ∧
    s.successful_requests ≤ (agentStep s op).successful_requests ∧
    (agent_get_weather s r).1.request_count = s.request_count + 1 ∧
    (agent_get_weather s r).1.successful_requests =
      s.successful_requests + (if r.isOk = true then 1 else 0) := by
  refine ⟨?_, (counterStep_step s op).1, (counterStep_step s op).2.1, ?_, ?_⟩
  · refine run_invariant ops (agentInit info0) ?_
    cases info0 <;> simp [agentInit, update_account_info]
  · cases r <;> rfl
  · cases r <;> simp [agent_get_weather, HttpResult.isOk]

/-! ## Marketplace contract theorems -/

/-- C10: every contract method leaves `token_price` (10,000,000
microAlgos), `token_duration` (3600 s) and `is_active` (true) at their
initial values in every reachable state; only `set_weather_asa_id`
modifies `weather_asa_id`; only `record_token_sale` modifies
`total_tokens_sold`, and a successful `record_token_sale` increments it by
exactly 1, returns the updated count, and changes nothing else. -/
theorem C10_marketplace_frame :
    (∀ ops : List MarketOp,
      (marketRun ops).token_price = 10000000 ∧
      (marketRun ops).token_duration = 3600 ∧
      (marketRun ops).is_active = true) ∧
    (∀ (s : MarketplaceState) (op : MarketOp),
      (marketStep s op).token_price = s.token_price ∧
      (marketStep s op).token_duration = s.token_duration ∧
      (marketStep s op).is_active = s.is_active) ∧
    (∀ (s : MarketplaceState) (op : MarketOp),
      (∀ a : ℕ, op ≠ .opSetAsaId a) →
      (marketStep s op).weather_asa_id = s.weather_asa_id) ∧
    (∀ (s : MarketplaceState) (op : MarketOp), op ≠ .opRecordSale →
      (marketStep s op).total_tokens_sold = s.total_tokens_sold) ∧
    (∀ (s : MarketplaceState) (a : ℕ),
      set_weather_asa_id s a = { s with weather_asa_id := a }) ∧
    (∀ (s s2 : MarketplaceState) (r : ℕ),
      record_token_sale s = some (s2, r) →
      s2.total_tokens_sold = s.total_tokens_sold + 1 ∧
      r = s2.total_tokens_sold ∧
      s2.token_price = s.token_price ∧
      s2.token_duration = s.token_duration ∧
      s2.is_active = s.is_active ∧
      s2.weather_asa_id = s.weather_asa_id) := by
  have hframe : ∀ (s : MarketplaceState) (op : MarketOp),
      (marketStep s op).token_price = s.token_price ∧
      (marketStep s op).token_duration = s.token_duration ∧
      (marketStep s op).is_active = s.is_active := by
    intro s op
    cases op with
    | opRecordSale =>
        by_cases hc : s.total_tokens_sold + 1 < 18446744073709551616 <;>
          simp [marketStep, record_token_sale, hc]
    | opSetAsaId a => simp [marketStep, set_weather_asa_id]
    | opGetPrice => exact ⟨rfl, rfl, rfl⟩
    | opGetAsaId => exact ⟨rfl, rfl, rfl⟩
    | opGetDuration => exact ⟨rfl, rfl, rfl⟩
    | opGetTotalSales => exact ⟨rfl, rfl, rfl⟩
    | opIsActive => exact ⟨rfl, rfl, rfl⟩
  have hrec : ∀ (s s2 : MarketplaceState) (r : ℕ),
      record_token_sale s = some (s2, r) →
      s2.total_tokens_sold = s.total_tokens_sold + 1 ∧
      r = s2.total_tokens_sold ∧
      s2.token_price = s.token_price ∧
      s2.token_duration = s.token_duration ∧
      s2.is_active = s.is_active ∧
      s2.weather_asa_id = s.weather_asa_id := by
    intro s s2 r h
    unfold record_token_sale at h
    split at h
    · injection h with h2
      injection h2 with hs hr
      subst hs
      subst hr
      simp
    · cases h
  refine ⟨?_, hframe, ?_, ?_, ?_, hrec⟩
  · intro ops
    have : ∀ (s : MarketplaceState),
        s.token_price = 10000000 → s.token_duration = 3600 →
        s.is_active = true →
        (ops.foldl marketStep s).token_price = 10000000 ∧
        (ops.foldl marketStep s).token_duration = 3600 ∧
        (ops.foldl marketStep s).is_active = true := by
      induction ops with
      | nil => intro s h1 h2 h3; exact ⟨h1, h2, h3⟩
      | cons op rest ih =>
          intro s h1 h2 h3
          have h := hframe s op
          exact ih _ (h.1.trans h1) (h.2.1.trans h2) (h.2.2.trans h3)
    exact this marketplaceInit rfl rfl rfl
  · intro s op hop
    cases op with
    | opSetAsaId a => exact absurd rfl (hop a)
    | opRecordSale =>
        by_cases hc : s.total_tokens_sold + 1 < 18446744073709551616 <;>
          simp [marketStep, record_token_sale, hc]
    | opGetPrice => rfl
    | opGetAsaId => rfl
    | opGetDuration => rfl
    | opGetTotalSales => rfl
    | opIsActive => rfl
  · intro s op hop
    cases op with
    | opRecordSale => exact absurd rfl hop
    | opSetAsaId a => rfl
    | opGetPrice => rfl
    | opGetAsaId => rfl
    | opGetDuration => rfl
    | opGetTotalSales => rfl
    | opIsActive => rfl
  · intro s a
    rfl

/-- C10 witness: recording the first sale from the initial state yields a
count of 1 with all other fields at their initial values, and a read-only
method changes nothing. -/
theorem C10_marketplace_frame_witness :
    ({ marketplaceInit with total_tokens_sold := 1 }.total_tokens_sold
        = marketplaceInit.total_tokens_sold + 1) ∧
    (marketStep marketplaceInit .opGetPrice).total_tokens_sold
      = marketplaceInit.total_tokens_sold := by
  constructor
  · exact (C10_marketplace_frame.2.2.2.2.2 marketplaceInit
      { marketplaceInit with total_tokens_sold := 1 } 1 (by rfl)).1
  · exact C10_marketplace_frame.2.2.2.1 marketplaceInit .opGetPrice
      (by intro h; cases h)

end AllGoGrand
